import Mathlib

/-!
Verification of the SIR simulation core (Person.cpp and Population.cpp).

The code is embedded shallowly: each C++ member function becomes a pure
Lean function on an explicit state record.  Machine integers are modelled
by Int (no overflow is reachable in these operations), the float
probability by Rat, and the random engine by an oracle: a pair of streams
giving the successive values produced by the uniform integer distribution
over member indices and the uniform real distribution over the unit
interval.  A function that can throw returns Except.
-/

set_option linter.unusedVariables false

/-- Health state of a person; the source stores it as one of the strings
susceptible, sick, recovered. -/
inductive Status where
  | susceptible
  | sick
  | recovered
deriving DecidableEq

/-- State of Person: remaining infectious days and current health state. -/
structure Person where
  infectionDays : Int
  current : Status
deriving DecidableEq

namespace Person

/-- Default constructor: susceptible with zero infection days. -/
def init : Person := { infectionDays := 0, current := Status.susceptible }

/-- Person updateState: a sick person decrements the countdown and
recovers when it reaches zero or below, the count being clamped to 0. -/
def updateState (p : Person) : Person :=
  if p.current = Status.sick then
    if p.infectionDays - 1 ≤ 0 then
      { infectionDays := 0, current := Status.recovered }
    else
      { infectionDays := p.infectionDays - 1, current := Status.sick }
  else p

/-- Error raised by infect on a non-positive duration, standing for the
std invalid argument exception of the source. -/
inductive InfectError where
  | invalidArgument
deriving DecidableEq

/-- Person infect: rejects a non-positive duration before any state
check; a susceptible person becomes sick for the given duration; any
other person is left unchanged silently. -/
def infect (p : Person) (duration : Int) : Except InfectError Person :=
  if duration ≤ 0 then Except.error InfectError.invalidArgument
  else if p.current = Status.susceptible then
    Except.ok { infectionDays := duration, current := Status.sick }
  else Except.ok p

def isRecovered (p : Person) : Bool := p.current = Status.recovered

def isInfected (p : Person) : Bool := p.current = Status.sick

def isSusceptible (p : Person) : Bool := p.current = Status.susceptible

def getStatus (p : Person) : Status := p.current

def getRemainingInfectionDays (p : Person) : Int := p.infectionDays

end Person

/-- Oracle for the random engines: idxs lists the successive outputs of
the uniform integer distribution over member indices, probs those of the
uniform real distribution on the unit interval; ip and pp are the
positions of the next unread value of each stream. -/
structure Rng where
  idxs : Nat → Nat
  probs : Nat → Rat
  ip : Nat
  pp : Nat

/-- Read the next index draw. -/
def Rng.nextIdx (r : Rng) : Nat × Rng := (r.idxs r.ip, { r with ip := r.ip + 1 })

/-- Read the next probability draw. -/
def Rng.nextProb (r : Rng) : Rat × Rng := (r.probs r.pp, { r with pp := r.pp + 1 })

/-- State of Population: size, day, the three cached compartment counts,
the three simulation parameters and the member list. -/
structure Population where
  size : Int
  day : Int
  countInfected : Int
  countSusceptible : Int
  countRecovered : Int
  infectionProbability : Rat
  contactsPerDay : Int
  infectionDuration : Int
  population : List Person
deriving DecidableEq

namespace Population

/-- Population constructor: all members susceptible, counts set to
size, 0, 0, all parameters zero, day zero. -/
def create (populationSize : Int) : Population :=
  { size := populationSize
    day := 0
    countInfected := 0
    countSusceptible := populationSize
    countRecovered := 0
    infectionProbability := 0
    contactsPerDay := 0
    infectionDuration := 0
    population := List.replicate populationSize.toNat Person.init }

def setInfectionProbability (pop : Population) (probability : Rat) : Population :=
  { pop with infectionProbability := probability }

def setContactsPerDay (pop : Population) (contacts : Int) : Population :=
  { pop with contactsPerDay := contacts }

def setInfectionDuration (pop : Population) (days : Int) : Population :=
  { pop with infectionDuration := days }

def getCurrentDay (pop : Population) : Int := pop.day

def getPopulationSize (pop : Population) : Int := pop.size

def getSusceptibleCount (pop : Population) : Int := pop.countSusceptible

def getInfectedCount (pop : Population) : Int := pop.countInfected

def getRecoveredCount (pop : Population) : Int := pop.countRecovered

def getInfectionProbability (pop : Population) : Rat := pop.infectionProbability

def getContactsPerDay (pop : Population) : Int := pop.contactsPerDay

def getInfectionDuration (pop : Population) : Int := pop.infectionDuration

/-- Population infectPerson: applies Person infect with the configured
infection duration to the member at the given position; an exception
propagates to the caller. -/
def infectPersonAt (pop : Population) (idx : Nat) : Except Person.InfectError Population :=
  match pop.population.get? idx with
  | none => Except.ok pop
  | some p =>
    match p.infect pop.infectionDuration with
    | Except.error e => Except.error e
    | Except.ok q => Except.ok { pop with population := pop.population.set idx q }

/-- Population infectRandomPerson: the index is the value drawn by the
uniform distribution over the member index space.  The cached counts are
not touched by the source, and neither are they here. -/
def infectRandomPerson (pop : Population) (idx : Nat) : Except Person.InfectError Population :=
  pop.infectPersonAt idx

/-- Number of iterations of the transmission loop of the source, whose
condition is that the counter be below contactsPerDay and below the
member count minus one. -/
def transCount (contacts : Int) (len : Nat) : Nat :=
  (min contacts ((len : Int) - 1)).toNat

/-- Body of Population simulateTransmission: per iteration one contact
index is drawn; if the contacted member is susceptible a probability is
drawn and, when it is at most the transmission probability, the contact
is appended to the newly infected collection.  The probability draw is
short-circuited away for a non-susceptible contact, as in the source. -/
def simTransAux (people : List Person) (prob : Rat) :
    Nat → List Nat → Rng → List Nat × Rng
  | 0, acc, r => (acc, r)
  | Nat.succ n, acc, r =>
    let d := r.nextIdx
    match people.get? d.1 with
    | none => simTransAux people prob n acc d.2
    | some contact =>
      if contact.isSusceptible then
        let q := d.2.nextProb
        if q.1 ≤ prob then simTransAux people prob n (acc ++ [d.1]) q.2
        else simTransAux people prob n acc q.2
      else simTransAux people prob n acc d.2

/-- Population simulateTransmission: runs the loop body for the number
of iterations allowed by the loop condition. -/
def simulateTransmission (people : List Person) (prob : Rat) (contacts : Int)
    (acc : List Nat) (r : Rng) : List Nat × Rng :=
  simTransAux people prob (transCount contacts people.length) acc r

/-- The per-member loop of Population simulateOneDay: position j is
visited with n positions left; a member infected when visited triggers
one transmission round over the current member list, then its state is
updated in place.  Transmissions accumulate into acc. -/
def dayLoopAux (prob : Rat) (contacts : Int) :
    Nat → Nat → List Person → List Nat → Rng → List Person × List Nat × Rng
  | 0, _, people, acc, r => (people, acc, r)
  | Nat.succ n, j, people, acc, r =>
    match people.get? j with
    | none => (people, acc, r)
    | some p =>
      if p.isInfected then
        let t := simulateTransmission people prob contacts acc r
        dayLoopAux prob contacts n (j + 1) (people.set j p.updateState) t.1 t.2
      else
        dayLoopAux prob contacts n (j + 1) (people.set j p.updateState) acc r

/-- The second loop of Population simulateOneDay: infect every collected
member with the configured duration; an exception aborts the call. -/
def infectList (duration : Int) :
    List Person → List Nat → Except Person.InfectError (List Person)
  | people, [] => Except.ok people
  | people, i :: rest =>
    match people.get? i with
    | none => infectList duration people rest
    | some p =>
      match p.infect duration with
      | Except.error e => Except.error e
      | Except.ok q => infectList duration (people.set i q) rest

/-- Population updateCounts: reset the three counters and scan the
members once, incrementing the counter matched first by the chain that
tests infected, then susceptible, then recovered. -/
def updateCounts (pop : Population) : Population :=
  let c := pop.population.foldl
    (fun (c : Int × Int × Int) p =>
      if p.isInfected then (c.1 + 1, c.2.1, c.2.2)
      else if p.isSusceptible then (c.1, c.2.1 + 1, c.2.2)
      else if p.isRecovered then (c.1, c.2.1, c.2.2 + 1)
      else c)
    (0, 0, 0)
  { pop with countInfected := c.1, countSusceptible := c.2.1, countRecovered := c.2.2 }

/-- Population simulateOneDay: run the per-member loop over the whole
member list, then infect the newly infected collection, then increment
the day and recompute the counts. -/
def simulateOneDay (pop : Population) (r : Rng) :
    Except Person.InfectError (Population × Rng) :=
  let res := dayLoopAux pop.infectionProbability pop.contactsPerDay
    pop.population.length 0 pop.population [] r
  match infectList pop.infectionDuration res.1 res.2.1 with
  | Except.error e => Except.error e
  | Except.ok people2 =>
    Except.ok (updateCounts { pop with population := people2, day := pop.day + 1 }, res.2.2)

end Population

/-- States of Person reachable through construction and completed calls
of infect and updateState. -/
inductive PersonReachable : Person → Prop where
  | init : PersonReachable Person.init
  | infect {p q : Person} {d : Int} :
      PersonReachable p → p.infect d = Except.ok q → PersonReachable q
  | update {p : Person} :
      PersonReachable p → PersonReachable p.updateState

/-- States of Population reachable from construction on a nonnegative
size through any sequence of configuration, seeding and day-advance
calls that complete without an exception. -/
inductive Reachable : Population → Prop where
  | create (n : Int) (h : 0 ≤ n) : Reachable (Population.create n)
  | setProb {pop : Population} (p : Rat) :
      Reachable pop → Reachable (pop.setInfectionProbability p)
  | setContacts {pop : Population} (c : Int) :
      Reachable pop → Reachable (pop.setContactsPerDay c)
  | setDuration {pop : Population} (d : Int) :
      Reachable pop → Reachable (pop.setInfectionDuration d)
  | seed {pop pop2 : Population} {idx : Nat} :
      Reachable pop → pop.infectRandomPerson idx = Except.ok pop2 → Reachable pop2
  | advance {pop pop2 : Population} {r r2 : Rng} :
      Reachable pop → pop.simulateOneDay r = Except.ok (pop2, r2) → Reachable pop2

/-- The cached compartment counts agree with the partition of the
members by state. -/
def Population.countsConsistent (pop : Population) : Prop :=
  pop.countInfected = ((pop.population.filter Person.isInfected).length : Int) ∧
  pop.countSusceptible = ((pop.population.filter Person.isSusceptible).length : Int) ∧
  pop.countRecovered = ((pop.population.filter Person.isRecovered).length : Int)

/-- The three count getters as one triple, susceptible first. -/
def Population.countsTriple (pop : Population) : Int × Int × Int :=
  (pop.getSusceptibleCount, pop.getInfectedCount, pop.getRecoveredCount)

/-- An operation on one person: one updateState call or one infect call
with the given duration; an infect exception leaves the person as it
was, as the source object survives the throw unchanged. -/
inductive PersonOp where
  | advance
  | infectBy (d : Int)

/-- Apply one operation to a person. -/
def applyOp (p : Person) : PersonOp → Person
  | PersonOp.advance => p.updateState
  | PersonOp.infectBy d =>
    match p.infect d with
    | Except.ok q => q
    | Except.error _ => p

/-- Apply a sequence of operations to a person, left to right. -/
def applyOps (p : Person) : List PersonOp → Person
  | [] => p
  | op :: rest => applyOps (applyOp p op) rest

/-- Chain a list of day advancements, one oracle per day, as the driver
loop of the source does; an exception aborts the run. -/
def advanceSeq (pop : Population) : List Rng → Except Person.InfectError Population
  | [] => Except.ok pop
  | r :: rest =>
    match pop.simulateOneDay r with
    | Except.error e => Except.error e
    | Except.ok x => advanceSeq x.1 rest

instance {ε α : Type} [DecidableEq ε] [DecidableEq α] : DecidableEq (Except ε α) := fun a b =>
  match a, b with
  | Except.ok x, Except.ok y =>
    if h : x = y then isTrue (by rw [h]) else isFalse (by intro hc; cases hc; exact h rfl)
  | Except.error x, Except.error y =>
    if h : x = y then isTrue (by rw [h]) else isFalse (by intro hc; cases hc; exact h rfl)
  | Except.ok _, Except.error _ => isFalse (by intro hc; cases hc)
  | Except.error _, Except.ok _ => isFalse (by intro hc; cases hc)

/-- The member list produced by the per-member loop: starting at
position j, each of the next n members is replaced by its updated
state, left to right, each position being read before it is written. -/
def updRange : Nat → Nat → List Person → List Person
  | 0, _, people => people
  | Nat.succ n, j, people =>
    match people.get? j with
    | none => people
    | some p => updRange n (j + 1) (people.set j p.updateState)

/-- Number of infected members among the n positions starting at j. -/
def infCountFrom (people : List Person) : Nat → Nat → Nat
  | _, 0 => 0
  | j, Nat.succ n =>
    match people.get? j with
    | none => 0
    | some p => (if p.isInfected then 1 else 0) + infCountFrom people (j + 1) n

/-- What one day of advancement does when no transmission can be
generated: every member is updated once, the day advances, the counts
are recomputed. -/
def zeroAdvance (pop : Population) : Population :=
  Population.updateCounts
    { pop with population := pop.population.map Person.updateState, day := pop.day + 1 }

/-- Oracle whose draws are all zero. -/
def rng0 : Rng := { idxs := fun _ => 0, probs := fun _ => 0, ip := 0, pp := 0 }

/-- The cohort of the countdown scenario: ten members, infection
duration three, no contacts per day. -/
def c5pop : Population :=
  ((Population.create 10).setInfectionDuration 3).setContactsPerDay 0

/-- Concrete two-member cohort used as a witness input: member zero is
sick for two more days, member one susceptible; transmission parameters
are probability one, one contact per day, duration three. -/
def popW : Population :=
  { size := 2, day := 0, countInfected := 0, countSusceptible := 2, countRecovered := 0
    infectionProbability := 1, contactsPerDay := 1, infectionDuration := 3
    population := [{ infectionDays := 2, current := Status.sick }, Person.init] }

/-- Oracle that always draws index one and probability zero. -/
def rngW : Rng := { idxs := fun _ => 1, probs := fun _ => 0, ip := 0, pp := 0 }

/-- The state of popW after one day under rngW: member zero advanced to
one remaining day, member one newly infected for three days. -/
def popWafter : Population :=
  { size := 2, day := 1, countInfected := 2, countSusceptible := 0, countRecovered := 0
    infectionProbability := 1, contactsPerDay := 1, infectionDuration := 3
    population := [{ infectionDays := 1, current := Status.sick },
                   { infectionDays := 3, current := Status.sick }] }

/-- Concrete three-member cohort used as a witness input for the draw
count: one sick member, two contacts per day, probability zero. -/
def popC3 : Population :=
  { size := 3, day := 0, countInfected := 0, countSusceptible := 0, countRecovered := 0
    infectionProbability := 0, contactsPerDay := 2, infectionDuration := 1
    population := [{ infectionDays := 2, current := Status.sick }, Person.init, Person.init] }

/-- Concrete two-member cohort used as a witness input for claim ten:
probability zero, one contact per day. -/
def popZ : Population :=
  { size := 2, day := 0, countInfected := 0, countSusceptible := 0, countRecovered := 0
    infectionProbability := 0, contactsPerDay := 1, infectionDuration := 3
    population := [{ infectionDays := 3, current := Status.sick }, Person.init] }

/-- Oracle that always draws index one and probability one. -/
def rngH : Rng := { idxs := fun _ => 1, probs := fun _ => 1, ip := 0, pp := 0 }

/-- Concrete one-member cohort used as a witness input for counts after
an advancement: the sole member is susceptible, no parameters set. -/
def popOne : Population := Population.create 1

/-- The state of popOne after one day: nothing changes but the day and
the recomputed counts. -/
def popOneAfter : Population :=
  { size := 1, day := 1, countInfected := 0, countSusceptible := 1, countRecovered := 0
    infectionProbability := 0, contactsPerDay := 0, infectionDuration := 0
    population := [Person.init] }

/-- Day zero of the countdown scenario: c5pop after one seeding at the
drawn position; the cached counts are untouched by seeding. -/
def c5day0 (idx : Nat) : Population :=
  { size := 10, day := 0, countInfected := 0, countSusceptible := 10, countRecovered := 0
    infectionProbability := 0, contactsPerDay := 0, infectionDuration := 3
    population := (List.replicate 10 Person.init).set idx
      { infectionDays := 3, current := Status.sick } }

/-- Day one of the countdown scenario. -/
def c5day1 (idx : Nat) : Population :=
  { size := 10, day := 1, countInfected := 1, countSusceptible := 9, countRecovered := 0
    infectionProbability := 0, contactsPerDay := 0, infectionDuration := 3
    population := (List.replicate 10 Person.init).set idx
      { infectionDays := 2, current := Status.sick } }

/-- Day two of the countdown scenario. -/
def c5day2 (idx : Nat) : Population :=
  { size := 10, day := 2, countInfected := 1, countSusceptible := 9, countRecovered := 0
    infectionProbability := 0, contactsPerDay := 0, infectionDuration := 3
    population := (List.replicate 10 Person.init).set idx
      { infectionDays := 1, current := Status.sick } }

/-- Day three of the countdown scenario: the seeded member recovered. -/
def c5day3 (idx : Nat) : Population :=
  { size := 10, day := 3, countInfected := 0, countSusceptible := 9, countRecovered := 1
    infectionProbability := 0, contactsPerDay := 0, infectionDuration := 3
    population := (List.replicate 10 Person.init).set idx
      { infectionDays := 0, current := Status.recovered } }

attribute [ext] Population

/-- The state of popC3 after one day under rng0: the sick member
advanced, both index draws hit the sick member zero so nobody is newly
infected, and the counts are recomputed. -/
def popC3after : Population :=
  { size := 3, day := 1, countInfected := 1, countSusceptible := 2, countRecovered := 0
    infectionProbability := 0, contactsPerDay := 2, infectionDuration := 1
    population := [{ infectionDays := 1, current := Status.sick }, Person.init, Person.init] }

/-- The state of popZ after one day under rngH: the probability draw one
half exceeds probability zero, so member one stays susceptible. -/
def popZafter : Population :=
  { size := 2, day := 1, countInfected := 1, countSusceptible := 1, countRecovered := 0
    infectionProbability := 0, contactsPerDay := 1, infectionDuration := 3
    population := [{ infectionDays := 2, current := Status.sick }, Person.init] }

/-! Lemmas about Person. -/

theorem Person.updateState_isSusceptible (p : Person) :
    p.updateState.isSusceptible = p.isSusceptible := by
  unfold Person.updateState Person.isSusceptible
  cases h : p.current <;> simp [h]
  split <;> simp

theorem Person.updateState_of_susceptible {p : Person} (h : p.isSusceptible = true) :
    p.updateState = p := by
  unfold Person.isSusceptible at h
  unfold Person.updateState
  simp at h
  simp [h]

theorem Person.updateState_of_recovered {p : Person} (h : p.isRecovered = true) :
    p.updateState = p := by
  unfold Person.isRecovered at h
  unfold Person.updateState
  simp at h
  simp [h]

theorem Person.infect_error_iff (p : Person) (d : Int) :
    p.infect d = Except.error Person.InfectError.invalidArgument ↔ d ≤ 0 := by
  unfold Person.infect
  constructor
  · intro h
    by_contra hd
    simp [hd] at h
    split at h <;> simp at h
  · intro h
    simp [h]

theorem Person.infect_pos_of_susceptible {p : Person} {d : Int} (hd : 0 < d)
    (hs : p.isSusceptible = true) :
    p.infect d = Except.ok { infectionDays := d, current := Status.sick } := by
  unfold Person.isSusceptible at hs
  simp at hs
  unfold Person.infect
  simp [hs, Int.not_le.mpr hd]

theorem Person.infect_pos_of_not_susceptible {p : Person} {d : Int} (hd : 0 < d)
    (hs : p.isSusceptible = false) :
    p.infect d = Except.ok p := by
  unfold Person.isSusceptible at hs
  simp at hs
  unfold Person.infect
  simp [hs, Int.not_le.mpr hd]

theorem Person.infect_ok_cases {p q : Person} {d : Int} (h : p.infect d = Except.ok q) :
    0 < d ∧ (q = { infectionDays := d, current := Status.sick } ∨ q = p) := by
  unfold Person.infect at h
  by_cases hd : d ≤ 0
  · simp [hd] at h
  · refine ⟨Int.not_le.mp hd, ?_⟩
    simp [hd] at h
    split at h
    · simp at h
      exact Or.inl h.symm
    · simp at h
      exact Or.inr h.symm

/-! Claims about Person: validation, state invariant, terminal recovery. -/

/-- C6: for every person in any state, infect with a non-positive
duration raises the invalid argument error, the validation firing before
the state check hence regardless of the current state, and the embedding
returns no modified person, so state and remaining days are untouched;
infect with a positive duration never raises. -/
theorem claim6_infect_validation (p : Person) (d : Int) :
    (d ≤ 0 → p.infect d = Except.error Person.InfectError.invalidArgument) ∧
    (0 < d → (p.infect d).isOk = true) := by
  constructor
  · intro h
    exact (Person.infect_error_iff p d).mpr h
  · intro h
    by_cases hs : p.isSusceptible = true
    · rw [Person.infect_pos_of_susceptible h hs]
      rfl
    · rw [Person.infect_pos_of_not_susceptible h (Bool.not_eq_true _ ▸ hs)]
      rfl

/-- Witness for C6 at concrete inputs: infect 0 on a sick person errors,
infect 3 on a fresh person succeeds. -/
theorem claim6_witness :
    Person.infect { infectionDays := 5, current := Status.sick } 0 =
      Except.error Person.InfectError.invalidArgument ∧
    (Person.init.infect 3).isOk = true :=
  ⟨(claim6_infect_validation { infectionDays := 5, current := Status.sick } 0).1 (by decide),
   (claim6_infect_validation Person.init 3).2 (by decide)⟩

/-- C8: every person state reachable through completed operations is
sick exactly when its countdown is positive, the countdown is never
negative, and a sick person whose countdown is about to reach zero is
resolved to recovered with the countdown clamped to zero by the update
operation itself. -/
theorem claim8_person_invariant (p : Person) (h : PersonReachable p) :
    (p.isInfected = true ↔ 0 < p.getRemainingInfectionDays) ∧
    0 ≤ p.getRemainingInfectionDays ∧
    (p.isInfected = true → p.getRemainingInfectionDays ≤ 1 →
      p.updateState = { infectionDays := 0, current := Status.recovered }) := by
  have clamp : ∀ q : Person, q.isInfected = true → q.getRemainingInfectionDays ≤ 1 →
      q.updateState = { infectionDays := 0, current := Status.recovered } := by
    intro q hq hle
    unfold Person.isInfected at hq
    simp at hq
    unfold Person.getRemainingInfectionDays at hle
    unfold Person.updateState
    simp [hq]
    omega
  induction h with
  | init =>
    refine ⟨by simp [Person.init, Person.isInfected, Person.getRemainingInfectionDays], by simp [Person.init, Person.getRemainingInfectionDays], clamp _⟩
  | infect hp hok ih =>
    rcases Person.infect_ok_cases hok with ⟨hd, hq | hq⟩
    · subst hq
      exact ⟨by simpa [Person.isInfected, Person.getRemainingInfectionDays] using hd,
             by simpa [Person.getRemainingInfectionDays] using le_of_lt hd, clamp _⟩
    · subst hq
      exact ⟨ih.1, ih.2.1, clamp _⟩
  | update hp ih =>
    rename_i p0
    refine ⟨?_, ?_, clamp _⟩ <;> obtain ⟨days, st⟩ := p0 <;> cases st
    · rw [show Person.updateState { infectionDays := days, current := Status.susceptible } =
          { infectionDays := days, current := Status.susceptible } by simp [Person.updateState]]
      exact ih.1
    · have hpos : (0 : Int) < days := ih.1.mp (by simp [Person.isInfected])
      unfold Person.updateState
      simp only
      by_cases hz : days - 1 ≤ 0
      · rw [if_pos hz]
        simp [Person.isInfected, Person.getRemainingInfectionDays]
      · rw [if_neg hz]
        simp [Person.isInfected, Person.getRemainingInfectionDays]
        omega
    · rw [show Person.updateState { infectionDays := days, current := Status.recovered } =
          { infectionDays := days, current := Status.recovered } by simp [Person.updateState]]
      exact ih.1
    · rw [show Person.updateState { infectionDays := days, current := Status.susceptible } =
          { infectionDays := days, current := Status.susceptible } by simp [Person.updateState]]
      exact ih.2.1
    · have hpos : (0 : Int) < days := ih.1.mp (by simp [Person.isInfected])
      unfold Person.updateState
      simp only
      by_cases hz : days - 1 ≤ 0
      · rw [if_pos hz]
        simp [Person.getRemainingInfectionDays]
      · rw [if_neg hz]
        simp [Person.getRemainingInfectionDays]
        omega
    · rw [show Person.updateState { infectionDays := days, current := Status.recovered } =
          { infectionDays := days, current := Status.recovered } by simp [Person.updateState]]
      exact ih.2.1

/-- Witness for C8 at a concrete reachable person: the fresh person
infected for five days. -/
theorem claim8_witness :
    (({ infectionDays := 5, current := Status.sick } : Person).isInfected = true ↔
      0 < ({ infectionDays := 5, current := Status.sick } : Person).getRemainingInfectionDays) ∧
    0 ≤ ({ infectionDays := 5, current := Status.sick } : Person).getRemainingInfectionDays ∧
    (({ infectionDays := 5, current := Status.sick } : Person).isInfected = true →
      ({ infectionDays := 5, current := Status.sick } : Person).getRemainingInfectionDays ≤ 1 →
      ({ infectionDays := 5, current := Status.sick } : Person).updateState =
        { infectionDays := 0, current := Status.recovered }) :=
  claim8_person_invariant _
    (@PersonReachable.infect Person.init { infectionDays := 5, current := Status.sick } 5
      PersonReachable.init (by decide))

/-- C9: infect with a positive duration on a person that is infected or
recovered is a silent no-op returning the person unchanged, and a
recovered person is terminal: no sequence of update or infect operations
changes it at all. -/
theorem claim9_recovered_terminal (p : Person) :
    ((p.isInfected = true ∨ p.isRecovered = true) →
      ∀ d : Int, 0 < d → p.infect d = Except.ok p) ∧
    (p.isRecovered = true → ∀ ops : List PersonOp, applyOps p ops = p) := by
  have notsus : ∀ q : Person, (q.isInfected = true ∨ q.isRecovered = true) →
      q.isSusceptible = false := by
    intro q h
    unfold Person.isInfected Person.isRecovered at h
    unfold Person.isSusceptible
    rcases h with h | h <;> simp at h <;> simp [h]
  constructor
  · intro h d hd
    exact Person.infect_pos_of_not_susceptible hd (notsus p h)
  · intro h ops
    induction ops generalizing p with
    | nil => rfl
    | cons op rest ih =>
      have hop : applyOp p op = p := by
        cases op with
        | advance => exact Person.updateState_of_recovered h
        | infectBy d =>
          show (match p.infect d with
            | Except.ok q => q
            | Except.error _ => p) = p
          by_cases hd : 0 < d
          · rw [Person.infect_pos_of_not_susceptible hd (notsus p (Or.inr h))]
          · rw [(Person.infect_error_iff p d).mpr (Int.not_lt.mp hd)]
      show applyOps (applyOp p op) rest = p
      rw [hop]
      exact ih p h

/-- Witness for C9 at the concrete recovered person: infect is a no-op
and a mixed sequence of operations leaves it unchanged. -/
theorem claim9_witness :
    Person.infect { infectionDays := 0, current := Status.recovered } 4 =
      Except.ok { infectionDays := 0, current := Status.recovered } ∧
    applyOps { infectionDays := 0, current := Status.recovered }
      [PersonOp.advance, PersonOp.infectBy 2, PersonOp.advance, PersonOp.infectBy 0] =
      { infectionDays := 0, current := Status.recovered } :=
  ⟨(claim9_recovered_terminal _).1 (Or.inr (by decide)) 4 (by decide),
   (claim9_recovered_terminal _).2 (by decide) _⟩

/-! Lemmas about the transmission loop and the per-member loop. -/

theorem simTransAux_rng (people : List Person) (prob : Rat) (n : Nat) :
    ∀ (acc : List Nat) (r : Rng),
      (Population.simTransAux people prob n acc r).2.idxs = r.idxs ∧
      (Population.simTransAux people prob n acc r).2.probs = r.probs ∧
      (Population.simTransAux people prob n acc r).2.ip = r.ip + n := by
  induction n with
  | zero => intro acc r; exact ⟨rfl, rfl, rfl⟩
  | succ n ih =>
    intro acc r
    simp only [Population.simTransAux, Rng.nextIdx, Rng.nextProb]
    cases hg : people.get? (r.idxs r.ip) with
    | none =>
      simp only [hg]
      have h := ih acc { r with ip := r.ip + 1 }
      exact ⟨h.1, h.2.1, by rw [h.2.2]; show r.ip + 1 + n = r.ip + (n + 1); omega⟩
    | some contact =>
      simp only [hg]
      by_cases hs : contact.isSusceptible
      · simp only [hs, if_true]
        by_cases hq : r.probs r.pp ≤ prob
        · simp only [hq, if_true]
          have h := ih (acc ++ [r.idxs r.ip]) { r with ip := r.ip + 1, pp := r.pp + 1 }
          exact ⟨h.1, h.2.1, by rw [h.2.2]; show r.ip + 1 + n = r.ip + (n + 1); omega⟩
        · simp only [hq, if_false]
          have h := ih acc { r with ip := r.ip + 1, pp := r.pp + 1 }
          exact ⟨h.1, h.2.1, by rw [h.2.2]; show r.ip + 1 + n = r.ip + (n + 1); omega⟩
      · simp only [Bool.not_eq_true] at hs
        simp only [hs, Bool.false_eq_true, if_false]
        have h := ih acc { r with ip := r.ip + 1 }
        exact ⟨h.1, h.2.1, by rw [h.2.2]; show r.ip + 1 + n = r.ip + (n + 1); omega⟩

theorem simTransAux_mem (people : List Person) (prob : Rat) (n : Nat) :
    ∀ (acc : List Nat) (r : Rng) (i : Nat),
      i ∈ (Population.simTransAux people prob n acc r).1 →
      i ∈ acc ∨ ∃ p, people.get? i = some p ∧ p.isSusceptible = true := by
  induction n with
  | zero => intro acc r i hi; exact Or.inl hi
  | succ n ih =>
    intro acc r i hi
    simp only [Population.simTransAux, Rng.nextIdx, Rng.nextProb] at hi
    cases hg : people.get? (r.idxs r.ip) with
    | none =>
      rw [hg] at hi
      exact ih acc _ i hi
    | some contact =>
      rw [hg] at hi
      by_cases hs : contact.isSusceptible
      · simp only [hs, if_true] at hi
        by_cases hq : r.probs r.pp ≤ prob
        · simp only [hq, if_true] at hi
          rcases ih _ _ i hi with hmem | hex
          · rcases List.mem_append.mp hmem with h1 | h1
            · exact Or.inl h1
            · rw [List.mem_singleton.mp h1]
              exact Or.inr ⟨contact, hg, hs⟩
          · exact Or.inr hex
        · simp only [hq, if_false] at hi
          exact ih acc _ i hi
      · simp only [Bool.not_eq_true] at hs
        simp only [hs, Bool.false_eq_true, if_false] at hi
        exact ih acc _ i hi

theorem simTransAux_acc_of_pos_probs (people : List Person) (prob : Rat)
    (hprob : prob ≤ 0) (n : Nat) :
    ∀ (acc : List Nat) (r : Rng), (∀ k, 0 < r.probs k) →
      (Population.simTransAux people prob n acc r).1 = acc := by
  induction n with
  | zero => intro acc r hr; rfl
  | succ n ih =>
    intro acc r hr
    simp only [Population.simTransAux, Rng.nextIdx, Rng.nextProb]
    cases hg : people.get? (r.idxs r.ip) with
    | none =>
      simp only [hg]
      exact ih acc _ hr
    | some contact =>
      simp only [hg]
      by_cases hs : contact.isSusceptible
      · simp only [hs, if_true]
        have hq : ¬ r.probs r.pp ≤ prob := by
          intro hle
          exact absurd (lt_of_lt_of_le (hr r.pp) hle) (not_lt.mpr hprob)
        simp only [hq, if_false]
        exact ih acc _ hr
      · simp only [Bool.not_eq_true] at hs
        simp only [hs, Bool.false_eq_true, if_false]
        exact ih acc _ hr

theorem simulateTransmission_rng (people : List Person) (prob : Rat) (contacts : Int)
    (acc : List Nat) (r : Rng) :
    (Population.simulateTransmission people prob contacts acc r).2.idxs = r.idxs ∧
    (Population.simulateTransmission people prob contacts acc r).2.probs = r.probs ∧
    (Population.simulateTransmission people prob contacts acc r).2.ip =
      r.ip + Population.transCount contacts people.length :=
  simTransAux_rng people prob _ acc r

theorem simulateTransmission_mem (people : List Person) (prob : Rat) (contacts : Int)
    (acc : List Nat) (r : Rng) (i : Nat)
    (hi : i ∈ (Population.simulateTransmission people prob contacts acc r).1) :
    i ∈ acc ∨ ∃ p, people.get? i = some p ∧ p.isSusceptible = true :=
  simTransAux_mem people prob _ acc r i hi

theorem transCount_of_nonpos {contacts : Int} (h : contacts ≤ 0) (len : Nat) :
    Population.transCount contacts len = 0 := by
  unfold Population.transCount
  apply Int.toNat_of_nonpos
  exact le_trans (min_le_left _ _) h

/-! Lemmas about updRange, the member list after the per-member loop. -/

theorem updRange_get? (n : Nat) : ∀ (j : Nat) (people : List Person) (i : Nat),
    (updRange n j people).get? i =
      if j ≤ i ∧ i < j + n then (people.get? i).map Person.updateState
      else people.get? i := by
  induction n with
  | zero =>
    intro j people i
    have hc : ¬ (j ≤ i ∧ i < j + 0) := by omega
    rw [if_neg hc]
    rfl
  | succ n ih =>
    intro j people i
    simp only [updRange]
    cases hg : people.get? j with
    | none =>
      simp only [hg]
      by_cases hc : j ≤ i ∧ i < j + (n + 1)
      · rw [if_pos hc]
        have hnone : people.get? i = none :=
          List.get?_eq_none.mpr (le_trans (List.get?_eq_none.mp hg) hc.1)
        rw [hnone]
        rfl
      · rw [if_neg hc]
    | some p =>
      simp only [hg]
      rw [ih]
      by_cases hij : i = j
      · subst hij
        have h1 : ¬ (i + 1 ≤ i ∧ i < i + 1 + n) := by omega
        rw [if_neg h1]
        have h2 : i ≤ i ∧ i < i + (n + 1) := by omega
        rw [if_pos h2, List.get?_set_eq, hg]
        rfl
      · rw [List.get?_set_ne _ _ (fun hh => hij hh.symm)]
        have hiff : (j + 1 ≤ i ∧ i < j + 1 + n) ↔ (j ≤ i ∧ i < j + (n + 1)) := by omega
        by_cases hc : j ≤ i ∧ i < j + (n + 1)
        · rw [if_pos (hiff.mpr hc), if_pos hc]
        · rw [if_neg (fun hcc => hc (hiff.mp hcc)), if_neg hc]

theorem updRange_length (n : Nat) : ∀ (j : Nat) (people : List Person),
    (updRange n j people).length = people.length := by
  induction n with
  | zero => intro j people; rfl
  | succ n ih =>
    intro j people
    simp only [updRange]
    cases hg : people.get? j with
    | none => simp only [hg]
    | some p =>
      simp only [hg]
      rw [ih, List.length_set]

theorem updRange_map (people : List Person) :
    updRange people.length 0 people = people.map Person.updateState := by
  apply List.ext_get?
  intro i
  rw [updRange_get?, List.get?_map]
  by_cases hc : i < people.length
  · rw [if_pos ⟨Nat.zero_le i, by omega⟩]
  · have hnone : people.get? i = none := List.get?_eq_none.mpr (by omega)
    rw [if_neg (by omega), hnone]
    rfl

/-! Lemmas about the per-member loop. -/

theorem dayLoopAux_people (prob : Rat) (contacts : Int) (n : Nat) :
    ∀ (j : Nat) (people : List Person) (acc : List Nat) (r : Rng),
      (Population.dayLoopAux prob contacts n j people acc r).1 = updRange n j people := by
  induction n with
  | zero => intro j people acc r; rfl
  | succ n ih =>
    intro j people acc r
    simp only [Population.dayLoopAux, updRange]
    cases hg : people.get? j with
    | none => simp only [hg]
    | some p =>
      simp only [hg]
      by_cases hinf : p.isInfected
      · simp only [hinf, if_true]
        exact ih _ _ _ _
      · simp only [Bool.not_eq_true] at hinf
        simp only [hinf, Bool.false_eq_true, if_false]
        exact ih _ _ _ _

theorem dayLoopAux_mem (prob : Rat) (contacts : Int) (n : Nat) :
    ∀ (j : Nat) (people : List Person) (acc : List Nat) (r : Rng) (i : Nat),
      i ∈ (Population.dayLoopAux prob contacts n j people acc r).2.1 →
      i ∈ acc ∨ ∃ p, people.get? i = some p ∧ p.isSusceptible = true := by
  induction n with
  | zero => intro _ _ acc _ i hi; exact Or.inl hi
  | succ n ih =>
    intro j people acc r i hi
    simp only [Population.dayLoopAux] at hi
    cases hg : people.get? j with
    | none =>
      rw [hg] at hi
      exact Or.inl hi
    | some p =>
      rw [hg] at hi
      have back : (∃ q, (people.set j p.updateState).get? i = some q ∧ q.isSusceptible = true) →
          ∃ q, people.get? i = some q ∧ q.isSusceptible = true := by
        rintro ⟨q, hq, hqs⟩
        by_cases hij : i = j
        · subst hij
          rw [List.get?_set_eq, hg] at hq
          have hqq : p.updateState = q := by
            simpa using hq
          refine ⟨p, hg, ?_⟩
          rw [← Person.updateState_isSusceptible, hqq]
          exact hqs
        · rw [List.get?_set_ne _ _ (fun hh => hij hh.symm)] at hq
          exact ⟨q, hq, hqs⟩
      by_cases hinf : p.isInfected
      · simp only [hinf, if_true] at hi
        rcases ih _ _ _ _ i hi with hmem | hex
        · rcases simulateTransmission_mem people prob contacts acc r i hmem with h1 | h1
          · exact Or.inl h1
          · exact Or.inr h1
        · exact Or.inr (back hex)
      · simp only [Bool.not_eq_true] at hinf
        simp only [hinf, Bool.false_eq_true, if_false] at hi
        rcases ih _ _ _ _ i hi with hmem | hex
        · exact Or.inl hmem
        · exact Or.inr (back hex)

theorem dayLoopAux_zero_contacts (prob : Rat) {contacts : Int} (hc : contacts ≤ 0) (n : Nat) :
    ∀ (j : Nat) (people : List Person) (acc : List Nat) (r : Rng),
      Population.dayLoopAux prob contacts n j people acc r = (updRange n j people, acc, r) := by
  induction n with
  | zero => intro j people acc r; rfl
  | succ n ih =>
    intro j people acc r
    simp only [Population.dayLoopAux, updRange]
    cases hg : people.get? j with
    | none => simp only [hg]
    | some p =>
      simp only [hg]
      have ht : Population.simulateTransmission people prob contacts acc r = (acc, r) := by
        unfold Population.simulateTransmission
        rw [transCount_of_nonpos hc]
        rfl
      by_cases hinf : p.isInfected
      · simp only [hinf, if_true, ht]
        exact ih _ _ _ _
      · simp only [Bool.not_eq_true] at hinf
        simp only [hinf, Bool.false_eq_true, if_false]
        exact ih _ _ _ _

theorem dayLoopAux_acc_of_pos_probs (prob : Rat) (hprob : prob ≤ 0) (contacts : Int) (n : Nat) :
    ∀ (j : Nat) (people : List Person) (acc : List Nat) (r : Rng), (∀ k, 0 < r.probs k) →
      (Population.dayLoopAux prob contacts n j people acc r).2.1 = acc := by
  induction n with
  | zero => intro j people acc r hr; rfl
  | succ n ih =>
    intro j people acc r hr
    simp only [Population.dayLoopAux]
    cases hg : people.get? j with
    | none => simp only [hg]
    | some p =>
      simp only [hg]
      by_cases hinf : p.isInfected
      · simp only [hinf, if_true]
        have hacc : (Population.simulateTransmission people prob contacts acc r).1 = acc := by
          unfold Population.simulateTransmission
          exact simTransAux_acc_of_pos_probs people prob hprob _ acc r hr
        have hprobs : (Population.simulateTransmission people prob contacts acc r).2.probs =
            r.probs := (simulateTransmission_rng people prob contacts acc r).2.1
        rw [ih _ _ _ _ (by rw [hprobs]; exact hr)]
        exact hacc
      · simp only [Bool.not_eq_true] at hinf
        simp only [hinf, Bool.false_eq_true, if_false]
        exact ih _ _ _ _ hr

/-! Counting the infected members that drive the transmission rounds. -/

theorem infCountFrom_congr (n : Nat) : ∀ (j : Nat) (l1 l2 : List Person),
    (∀ k, j ≤ k → l1.get? k = l2.get? k) → infCountFrom l1 j n = infCountFrom l2 j n := by
  induction n with
  | zero => intro j l1 l2 h; rfl
  | succ n ih =>
    intro j l1 l2 h
    simp only [infCountFrom]
    rw [h j (le_refl j)]
    cases hg : l2.get? j with
    | none => rfl
    | some p =>
      rw [ih (j + 1) l1 l2 (fun k hk => h k (by omega))]

theorem infCountFrom_set (n : Nat) (j : Nat) (q : Person) (people : List Person) :
    infCountFrom (people.set j q) (j + 1) n = infCountFrom people (j + 1) n := by
  apply infCountFrom_congr
  intro k hk
  exact List.get?_set_ne _ _ (by omega)

theorem infCountFrom_shift (n : Nat) : ∀ (j : Nat) (p : Person) (t : List Person),
    infCountFrom (p :: t) (j + 1) n = infCountFrom t j n := by
  induction n with
  | zero => intro j p t; rfl
  | succ n ih =>
    intro j p t
    simp only [infCountFrom]
    have hg : (p :: t).get? (j + 1) = t.get? j := rfl
    rw [hg]
    cases hgt : t.get? j with
    | none => rfl
    | some q =>
      rw [ih (j + 1) p t]

theorem infCountFrom_filter (people : List Person) :
    infCountFrom people 0 people.length = (people.filter Person.isInfected).length := by
  induction people with
  | nil => rfl
  | cons p t ih =>
    show infCountFrom (p :: t) 0 (t.length + 1) = _
    simp only [infCountFrom]
    have hg : (p :: t).get? 0 = some p := rfl
    rw [hg, infCountFrom_shift, ih, List.filter_cons]
    by_cases hp : p.isInfected
    · simp [hp]
      omega
    · simp [hp]

theorem dayLoopAux_ip (prob : Rat) (contacts : Int) (n : Nat) :
    ∀ (j : Nat) (people : List Person) (acc : List Nat) (r : Rng),
      (Population.dayLoopAux prob contacts n j people acc r).2.2.ip =
        r.ip + infCountFrom people j n * Population.transCount contacts people.length := by
  induction n with
  | zero =>
    intro j people acc r
    show r.ip = r.ip + infCountFrom people j 0 * _
    simp [infCountFrom]
  | succ n ih =>
    intro j people acc r
    simp only [Population.dayLoopAux, infCountFrom]
    cases hg : people.get? j with
    | none =>
      simp only [hg]
      show r.ip = r.ip + 0 * _
      simp
    | some p =>
      simp only [hg]
      by_cases hinf : p.isInfected
      · simp only [hinf, if_true]
        rw [ih]
        rw [List.length_set, infCountFrom_set]
        have hip : (Population.simulateTransmission people prob contacts acc r).2.ip =
            r.ip + Population.transCount contacts people.length :=
          (simulateTransmission_rng people prob contacts acc r).2.2
        rw [hip]
        ring
      · simp only [Bool.not_eq_true] at hinf
        simp only [hinf, Bool.false_eq_true, if_false]
        rw [ih]
        rw [List.length_set, infCountFrom_set]
        simp

/-! Lemmas about the second loop, which infects the collected members. -/

theorem infectList_ok {d : Int} (hd : 0 < d) :
    ∀ (l : List Nat) (people : List Person),
      ∃ people2, Population.infectList d people l = Except.ok people2 := by
  intro l
  induction l with
  | nil => intro people; exact ⟨people, rfl⟩
  | cons i rest ih =>
    intro people
    simp only [Population.infectList]
    cases hg : people.get? i with
    | none => exact ih people
    | some p =>
      simp only []
      by_cases hs : p.isSusceptible
      · rw [Person.infect_pos_of_susceptible hd hs]
        exact ih _
      · simp only [Bool.not_eq_true] at hs
        rw [Person.infect_pos_of_not_susceptible hd hs]
        exact ih _

theorem infectList_length {d : Int} :
    ∀ (l : List Nat) (people people2 : List Person),
      Population.infectList d people l = Except.ok people2 →
      people2.length = people.length := by
  intro l
  induction l with
  | nil =>
    intro people people2 h
    cases h
    rfl
  | cons i rest ih =>
    intro people people2 h
    simp only [Population.infectList] at h
    cases hg : people.get? i with
    | none =>
      rw [hg] at h
      exact ih people people2 h
    | some p =>
      rw [hg] at h
      simp only [] at h
      cases hq : p.infect d with
      | error e => rw [hq] at h; simp only [] at h; cases h
      | ok q =>
        rw [hq] at h
        simp only [] at h
        rw [ih _ _ h, List.length_set]

theorem infectList_sick_preserved {d : Int} :
    ∀ (l : List Nat) (people people2 : List Person) (i : Nat) (q : Person),
      people.get? i = some q → q.current = Status.sick →
      Population.infectList d people l = Except.ok people2 →
      people2.get? i = some q := by
  intro l
  induction l with
  | nil =>
    intro people people2 i q hq hsick h
    cases h
    exact hq
  | cons k rest ih =>
    intro people people2 i q hq hsick h
    simp only [Population.infectList] at h
    cases hg : people.get? k with
    | none =>
      rw [hg] at h
      exact ih people people2 i q hq hsick h
    | some p =>
      rw [hg] at h
      simp only [] at h
      cases hpq : p.infect d with
      | error e => rw [hpq] at h; simp only [] at h; cases h
      | ok p2 =>
        rw [hpq] at h
        simp only [] at h
        by_cases hik : i = k
        · subst hik
          rw [hq] at hg
          cases hg
          have hdp : (0 : Int) < d := (Person.infect_ok_cases hpq).1
          have hnoop : q.infect d = Except.ok q :=
            Person.infect_pos_of_not_susceptible hdp
              (by simp [Person.isSusceptible, hsick])
          rw [hnoop] at hpq
          have hp2 : p2 = q := (Except.ok.inj hpq).symm
          subst hp2
          refine ih _ _ i p2 ?_ hsick h
          rw [List.get?_set_eq, hq]
          rfl
        · refine ih _ _ i q ?_ hsick h
          rw [List.get?_set_ne _ _ (fun hh => hik hh.symm)]
          exact hq

theorem infectList_infects_member {d : Int} (hd : 0 < d) :
    ∀ (l : List Nat) (people people2 : List Person) (i : Nat) (p : Person),
      i ∈ l → people.get? i = some p → p.isSusceptible = true →
      Population.infectList d people l = Except.ok people2 →
      people2.get? i = some { infectionDays := d, current := Status.sick } := by
  intro l
  induction l with
  | nil =>
    intro people people2 i p hmem
    cases hmem
  | cons k rest ih =>
    intro people people2 i p hmem hp hs h
    simp only [Population.infectList] at h
    by_cases hik : i = k
    · subst hik
      rw [hp] at h
      simp only [] at h
      rw [Person.infect_pos_of_susceptible hd hs] at h
      simp only [] at h
      refine infectList_sick_preserved rest _ people2 i _ ?_ rfl h
      rw [List.get?_set_eq, hp]
      rfl
    · have hmem2 : i ∈ rest := by
        rcases List.mem_cons.mp hmem with hcc | hcc
        · exact absurd hcc hik
        · exact hcc
      cases hg : people.get? k with
      | none =>
        rw [hg] at h
        exact ih people people2 i p hmem2 hp hs h
      | some pk =>
        rw [hg] at h
        simp only [] at h
        cases hpq : pk.infect d with
        | error e => rw [hpq] at h; simp only [] at h; cases h
        | ok q =>
          rw [hpq] at h
          simp only [] at h
          refine ih _ people2 i p hmem2 ?_ hs h
          rw [List.get?_set_ne _ _ (fun hh => hik hh.symm)]
          exact hp

/-! Lemmas about the count recomputation. -/

theorem countsFold (people : List Person) : ∀ (a b c : Int),
    people.foldl
      (fun (x : Int × Int × Int) p =>
        if p.isInfected then (x.1 + 1, x.2.1, x.2.2)
        else if p.isSusceptible then (x.1, x.2.1 + 1, x.2.2)
        else if p.isRecovered then (x.1, x.2.1, x.2.2 + 1)
        else x)
      (a, b, c) =
      (a + ((people.filter Person.isInfected).length : Int),
       b + ((people.filter Person.isSusceptible).length : Int),
       c + ((people.filter Person.isRecovered).length : Int)) := by
  induction people with
  | nil => intro a b c; simp
  | cons p t ih =>
    intro a b c
    obtain ⟨days, st⟩ := p
    cases st
    · have h1 : Person.isInfected { infectionDays := days, current := Status.susceptible } = false := rfl
      have h2 : Person.isSusceptible { infectionDays := days, current := Status.susceptible } = true := rfl
      have h3 : Person.isRecovered { infectionDays := days, current := Status.susceptible } = false := rfl
      simp [h1, h2, h3, List.filter_cons, ih, Prod.mk.injEq]
      omega
    · have h1 : Person.isInfected { infectionDays := days, current := Status.sick } = true := rfl
      have h2 : Person.isSusceptible { infectionDays := days, current := Status.sick } = false := rfl
      have h3 : Person.isRecovered { infectionDays := days, current := Status.sick } = false := rfl
      simp [h1, h2, h3, List.filter_cons, ih, Prod.mk.injEq]
      omega
    · have h1 : Person.isInfected { infectionDays := days, current := Status.recovered } = false := rfl
      have h2 : Person.isSusceptible { infectionDays := days, current := Status.recovered } = false := rfl
      have h3 : Person.isRecovered { infectionDays := days, current := Status.recovered } = true := rfl
      simp [h1, h2, h3, List.filter_cons, ih, Prod.mk.injEq]
      omega

theorem updateCounts_spec (pop : Population) :
    (pop.updateCounts).countInfected = ((pop.population.filter Person.isInfected).length : Int) ∧
    (pop.updateCounts).countSusceptible =
      ((pop.population.filter Person.isSusceptible).length : Int) ∧
    (pop.updateCounts).countRecovered =
      ((pop.population.filter Person.isRecovered).length : Int) := by
  unfold Population.updateCounts
  have h := countsFold pop.population 0 0 0
  simp only [h]
  refine ⟨by simp, by simp, by simp⟩

theorem updateCounts_fields (pop : Population) :
    (pop.updateCounts).size = pop.size ∧
    (pop.updateCounts).day = pop.day ∧
    (pop.updateCounts).infectionProbability = pop.infectionProbability ∧
    (pop.updateCounts).contactsPerDay = pop.contactsPerDay ∧
    (pop.updateCounts).infectionDuration = pop.infectionDuration ∧
    (pop.updateCounts).population = pop.population :=
  ⟨rfl, rfl, rfl, rfl, rfl, rfl⟩

theorem filter_partition (people : List Person) :
    (people.filter Person.isInfected).length + (people.filter Person.isSusceptible).length +
      (people.filter Person.isRecovered).length = people.length := by
  induction people with
  | nil => rfl
  | cons p t ih =>
    obtain ⟨days, st⟩ := p
    cases st
    · have h1 : Person.isInfected { infectionDays := days, current := Status.susceptible } = false := rfl
      have h2 : Person.isSusceptible { infectionDays := days, current := Status.susceptible } = true := rfl
      have h3 : Person.isRecovered { infectionDays := days, current := Status.susceptible } = false := rfl
      simp [List.filter_cons, h1, h2, h3]
      omega
    · have h1 : Person.isInfected { infectionDays := days, current := Status.sick } = true := rfl
      have h2 : Person.isSusceptible { infectionDays := days, current := Status.sick } = false := rfl
      have h3 : Person.isRecovered { infectionDays := days, current := Status.sick } = false := rfl
      simp [List.filter_cons, h1, h2, h3]
      omega
    · have h1 : Person.isInfected { infectionDays := days, current := Status.recovered } = false := rfl
      have h2 : Person.isSusceptible { infectionDays := days, current := Status.recovered } = false := rfl
      have h3 : Person.isRecovered { infectionDays := days, current := Status.recovered } = true := rfl
      simp [List.filter_cons, h1, h2, h3]
      omega

/-! Structure of one successful day of advancement. -/

theorem simulateOneDay_ok_elim {pop : Population} {r : Rng} {pop2 : Population} {r2 : Rng}
    (h : pop.simulateOneDay r = Except.ok (pop2, r2)) :
    ∃ people2,
      Population.infectList pop.infectionDuration
        (Population.dayLoopAux pop.infectionProbability pop.contactsPerDay
          pop.population.length 0 pop.population [] r).1
        (Population.dayLoopAux pop.infectionProbability pop.contactsPerDay
          pop.population.length 0 pop.population [] r).2.1 = Except.ok people2 ∧
      pop2 = Population.updateCounts
        { pop with population := people2, day := pop.day + 1 } ∧
      r2 = (Population.dayLoopAux pop.infectionProbability pop.contactsPerDay
          pop.population.length 0 pop.population [] r).2.2 := by
  unfold Population.simulateOneDay at h
  simp only [] at h
  cases hil : Population.infectList pop.infectionDuration
      (Population.dayLoopAux pop.infectionProbability pop.contactsPerDay
        pop.population.length 0 pop.population [] r).1
      (Population.dayLoopAux pop.infectionProbability pop.contactsPerDay
        pop.population.length 0 pop.population [] r).2.1 with
  | error e =>
    rw [hil] at h
    simp only [] at h
    cases h
  | ok people2 =>
    rw [hil] at h
    simp only [] at h
    have hpair := Except.ok.inj h
    exact ⟨people2, rfl, (congrArg Prod.fst hpair).symm, (congrArg Prod.snd hpair).symm⟩

theorem simulateOneDay_fields {pop : Population} {r : Rng} {pop2 : Population} {r2 : Rng}
    (h : pop.simulateOneDay r = Except.ok (pop2, r2)) :
    pop2.size = pop.size ∧ pop2.day = pop.day + 1 ∧
    pop2.infectionProbability = pop.infectionProbability ∧
    pop2.contactsPerDay = pop.contactsPerDay ∧
    pop2.infectionDuration = pop.infectionDuration ∧
    pop2.population.length = pop.population.length := by
  obtain ⟨people2, hil, hpop2, hr2⟩ := simulateOneDay_ok_elim h
  subst hpop2
  have hlen : people2.length = pop.population.length := by
    rw [infectList_length _ _ _ hil, dayLoopAux_people, updRange_length]
  exact ⟨rfl, rfl, rfl, rfl, rfl, hlen⟩

theorem simulateOneDay_isOk {pop : Population} (hd : 0 < pop.infectionDuration) (r : Rng) :
    (pop.simulateOneDay r).isOk = true := by
  unfold Population.simulateOneDay
  simp only []
  obtain ⟨people2, hil⟩ := infectList_ok hd
    (Population.dayLoopAux pop.infectionProbability pop.contactsPerDay
      pop.population.length 0 pop.population [] r).2.1
    (Population.dayLoopAux pop.infectionProbability pop.contactsPerDay
      pop.population.length 0 pop.population [] r).1
  rw [hil]
  rfl

theorem simulateOneDay_zero_contacts {pop : Population} (hc : pop.contactsPerDay ≤ 0) (r : Rng) :
    pop.simulateOneDay r = Except.ok (zeroAdvance pop, r) := by
  unfold Population.simulateOneDay
  simp only []
  rw [dayLoopAux_zero_contacts _ hc]
  simp only []
  show (match Population.infectList pop.infectionDuration
      (updRange pop.population.length 0 pop.population) [] with
    | Except.error e => Except.error e
    | Except.ok people2 =>
      Except.ok (Population.updateCounts { pop with population := people2, day := pop.day + 1 }, r)) =
    Except.ok (zeroAdvance pop, r)
  simp only [Population.infectList]
  rw [updRange_map]
  rfl

theorem infectRandomPerson_ok_elim {pop : Population} {idx : Nat} {pop2 : Population}
    (h : pop.infectRandomPerson idx = Except.ok pop2) :
    pop2.size = pop.size ∧ pop2.day = pop.day ∧
    pop2.countInfected = pop.countInfected ∧
    pop2.countSusceptible = pop.countSusceptible ∧
    pop2.countRecovered = pop.countRecovered ∧
    pop2.infectionProbability = pop.infectionProbability ∧
    pop2.contactsPerDay = pop.contactsPerDay ∧
    pop2.infectionDuration = pop.infectionDuration ∧
    pop2.population.length = pop.population.length := by
  unfold Population.infectRandomPerson Population.infectPersonAt at h
  cases hg : pop.population.get? idx with
  | none =>
    rw [hg] at h
    simp only [] at h
    cases h
    exact ⟨rfl, rfl, rfl, rfl, rfl, rfl, rfl, rfl, rfl⟩
  | some p =>
    rw [hg] at h
    simp only [] at h
    cases hq : p.infect pop.infectionDuration with
    | error e =>
      rw [hq] at h
      simp only [] at h
      cases h
    | ok q =>
      rw [hq] at h
      simp only [] at h
      cases h
      exact ⟨rfl, rfl, rfl, rfl, rfl, rfl, rfl, rfl, List.length_set _ _ _⟩

theorem infectRandomPerson_isOk {pop : Population} (hd : 0 < pop.infectionDuration) (idx : Nat) :
    (pop.infectRandomPerson idx).isOk = true := by
  unfold Population.infectRandomPerson Population.infectPersonAt
  cases hg : pop.population.get? idx with
  | none => rfl
  | some p =>
    simp only []
    by_cases hs : p.isSusceptible
    · rw [Person.infect_pos_of_susceptible hd hs]
      rfl
    · simp only [Bool.not_eq_true] at hs
      rw [Person.infect_pos_of_not_susceptible hd hs]
      rfl

/-! Claims about totality, the partition invariant and count consistency. -/

/-- C7 counterexample: calling infectRandomPerson before any
configuration raises the invalid argument error, because the default
infection duration is zero and Person infect rejects it, so the claim
that every call order on well-typed inputs never raises is false. -/
theorem claim7_counterexample :
    (Population.create 1).infectRandomPerson 0 =
      Except.error Person.InfectError.invalidArgument := by decide

/-- C7 amended: construction, the setters and the queries are total by
construction, and the two fallible operations, seeding and day
advancement, never raise provided the configured infection duration is
positive at the time infection is applied; with a non-positive duration
they can raise, as the counterexample shows. -/
theorem claim7_amended :
    (∀ (pop : Population) (idx : Nat), 0 < pop.infectionDuration →
      (pop.infectRandomPerson idx).isOk = true) ∧
    (∀ (pop : Population) (r : Rng), 0 < pop.infectionDuration →
      (pop.simulateOneDay r).isOk = true) :=
  ⟨fun pop idx hd => infectRandomPerson_isOk hd idx,
   fun pop r hd => simulateOneDay_isOk hd r⟩

/-- Witness for the amended C7 at concrete inputs. -/
theorem claim7_witness :
    ((((Population.create 1).setInfectionDuration 3).infectRandomPerson 0).isOk = true) ∧
    ((((Population.create 1).setInfectionDuration 3).simulateOneDay rng0).isOk = true) :=
  ⟨claim7_amended.1 ((Population.create 1).setInfectionDuration 3) 0 (by decide),
   claim7_amended.2 ((Population.create 1).setInfectionDuration 3) rng0 (by decide)⟩

theorem reachable_inv {pop : Population} (h : Reachable pop) :
    0 ≤ pop.size ∧ pop.population.length = pop.size.toNat ∧
    pop.countSusceptible + pop.countInfected + pop.countRecovered = pop.size := by
  induction h with
  | create n hn =>
    refine ⟨hn, ?_, ?_⟩
    · simp [Population.create]
    · show n + 0 + 0 = n
      ring
  | setProb p hr ih => exact ih
  | setContacts c hr ih => exact ih
  | setDuration d hr ih => exact ih
  | seed hr hok ih =>
    obtain ⟨h1, h2, h3, h4, h5, h6, h7, h8, h9⟩ := infectRandomPerson_ok_elim hok
    refine ⟨?_, ?_, ?_⟩
    · rw [h1]; exact ih.1
    · rw [h9, h1]; exact ih.2.1
    · rw [h4, h3, h5, h1]; exact ih.2.2
  | advance hr hok ih =>
    rename_i pop0 pop2 r r2
    have hf := simulateOneDay_fields hok
    obtain ⟨people2, hil, hpop2, hr2⟩ := simulateOneDay_ok_elim hok
    refine ⟨by rw [hf.1]; exact ih.1, by rw [hf.2.2.2.2.2, hf.1]; exact ih.2.1, ?_⟩
    subst hpop2
    have hspec := updateCounts_spec { pop0 with population := people2, day := pop0.day + 1 }
    have hlen : people2.length = pop0.population.length := by
      rw [infectList_length _ _ _ hil, dayLoopAux_people, updRange_length]
    have hpart := filter_partition people2
    have h1 := ih.1
    have h2 := ih.2.1
    rw [hspec.1, hspec.2.1, hspec.2.2]
    simp only []
    omega

/-- C4: in every state reachable from construction by any sequence of
configuration, seeding and day-advance calls, the three count getters
sum to the population size, even while the counts are stale. -/
theorem claim4_partition_invariant (pop : Population) (h : Reachable pop) :
    pop.getSusceptibleCount + pop.getInfectedCount + pop.getRecoveredCount =
      pop.getPopulationSize :=
  (reachable_inv h).2.2

/-- Witness for C4 at the freshly constructed cohort of three. -/
theorem claim4_witness :
    (Population.create 3).getSusceptibleCount + (Population.create 3).getInfectedCount +
      (Population.create 3).getRecoveredCount = (Population.create 3).getPopulationSize :=
  claim4_partition_invariant _ (Reachable.create 3 (by decide))

/-- C1 counterexample: on a one-member cohort with duration three, one
seeding call leaves the cached infected count at zero although the
member is infected, so the counts do not match the partition after
seedRandomInfection and the zero-count equivalence fails there. -/
theorem claim1_counterexample :
    (((Population.create 1).setInfectionDuration 3).infectRandomPerson 0).map
      (fun pop => (pop.getInfectedCount, pop.population.any Person.isInfected)) =
      Except.ok (0, true) := by decide

/-- C1 amended: the cached counts equal the partition of the members by
state after construction and after every completed simulateOneDay call,
and wherever they are consistent the infected count is zero exactly when
no member is infected; after an infectRandomPerson call the counts are
not recomputed and can disagree with the partition until the next
advancement, as the counterexample shows. -/
theorem claim1_amended :
    (∀ n : Int, 0 ≤ n → Population.countsConsistent (Population.create n)) ∧
    (∀ (pop : Population) (r : Rng) (pop2 : Population) (r2 : Rng),
      pop.simulateOneDay r = Except.ok (pop2, r2) → Population.countsConsistent pop2) ∧
    (∀ pop : Population, Population.countsConsistent pop →
      (pop.getInfectedCount = 0 ↔ pop.population.all (fun p => ! p.isInfected) = true)) := by
  refine ⟨?_, ?_, ?_⟩
  · intro n hn
    have hinf : Person.isInfected Person.init = false := rfl
    have hsus : Person.isSusceptible Person.init = true := rfl
    have hrec : Person.isRecovered Person.init = false := rfl
    refine ⟨?_, ?_, ?_⟩
    · show (0 : Int) = _
      simp [Population.create, List.filter_replicate, hinf]
    · show n = _
      simp [Population.create, List.filter_replicate, hsus]
      omega
    · show (0 : Int) = _
      simp [Population.create, List.filter_replicate, hrec]
  · intro pop r pop2 r2 h
    obtain ⟨people2, hil, hpop2, hr2⟩ := simulateOneDay_ok_elim h
    subst hpop2
    exact updateCounts_spec _
  · intro pop hcc
    have hgi : pop.getInfectedCount = pop.countInfected := rfl
    rw [hgi, hcc.1]
    rw [Int.natCast_eq_zero, List.length_eq_zero, List.filter_eq_nil, List.all_eq_true]
    constructor
    · intro hall p hp
      rw [Bool.not_eq_true']
      exact Bool.not_eq_true _ ▸ (hall p hp)
    · intro hall p hp
      have := hall p hp
      rw [Bool.not_eq_true'] at this
      simp [this]

/-- Witness for the amended C1: consistency at a fresh cohort, after one
concrete advancement, and the zero-count equivalence at a fresh cohort. -/
theorem claim1_witness :
    Population.countsConsistent (Population.create 2) ∧
    Population.countsConsistent popOneAfter ∧
    ((Population.create 2).getInfectedCount = 0 ↔
      (Population.create 2).population.all (fun p => ! p.isInfected) = true) :=
  ⟨claim1_amended.1 2 (by decide),
   claim1_amended.2.1 popOne rng0 popOneAfter rng0 rfl,
   claim1_amended.2.2 (Population.create 2) (claim1_amended.1 2 (by decide))⟩

/-! Claim about the ordering of transmission, progression and infection
inside one day. -/

/-- C2: every member collected for transmission during one day was
susceptible at the start of the call, and when the call completes the
member holds the full configured infection duration: its infection is
applied only after every countdown update, so it is not decremented on
its first day, and since it ends the day sick it did not also recover
in the same call. -/
theorem claim2_transmission_ordering (pop : Population) (r : Rng)
    (hd : 0 < pop.infectionDuration) :
    ∀ i ∈ (Population.dayLoopAux pop.infectionProbability pop.contactsPerDay
        pop.population.length 0 pop.population [] r).2.1,
      (∃ p, pop.population.get? i = some p ∧ p.isSusceptible = true) ∧
      (∀ (pop2 : Population) (r2 : Rng), pop.simulateOneDay r = Except.ok (pop2, r2) →
        pop2.population.get? i =
          some { infectionDays := pop.infectionDuration, current := Status.sick }) := by
  intro i hi
  have hmem := dayLoopAux_mem pop.infectionProbability pop.contactsPerDay
    pop.population.length 0 pop.population [] r i hi
  rcases hmem with hfalse | hex
  · cases hfalse
  · obtain ⟨p, hp, hps⟩ := hex
    refine ⟨⟨p, hp, hps⟩, ?_⟩
    intro pop2 r2 hok
    obtain ⟨people2, hil, hpop2, hr2⟩ := simulateOneDay_ok_elim hok
    subst hpop2
    have hlt : i < pop.population.length := by
      rcases List.get?_eq_some.mp hp with ⟨hh, _⟩
      exact hh
    have hi1 : (Population.dayLoopAux pop.infectionProbability pop.contactsPerDay
        pop.population.length 0 pop.population [] r).1.get? i = some p := by
      rw [dayLoopAux_people, updRange_get?, if_pos ⟨Nat.zero_le i, by omega⟩, hp]
      rw [show (some p).map Person.updateState = some p.updateState from rfl]
      rw [Person.updateState_of_susceptible hps]
    exact infectList_infects_member hd _ _ people2 i p hi hi1 hps hil

/-- Witness for C2: in the two-member cohort popW under rngW the
susceptible member one is collected, and after the day it is sick with
the full configured duration. -/
theorem claim2_witness :
    (∃ p, popW.population.get? 1 = some p ∧ p.isSusceptible = true) ∧
    popWafter.population.get? 1 =
      some { infectionDays := popW.infectionDuration, current := Status.sick } := by
  have h := claim2_transmission_ordering popW rngW (by decide) 1 (by decide)
  exact ⟨h.1, h.2 popWafter (Rng.mk rngW.idxs rngW.probs 1 1) rfl⟩

/-! Claim about the number of contact draws. -/

/-- C3 counterexample: with one member and one configured contact per
day, a transmission round for an infected member draws no contact index
at all, not one, because the loop also stops below the member count
minus one. -/
theorem claim3_counterexample :
    (Population.simulateTransmission [{ infectionDays := 3, current := Status.sick }]
      0 1 [] rng0).2.ip ≠ rng0.ip + 1 := by decide

/-- C3 amended: each transmission round generates exactly
min(contactsPerDay, N minus 1) contact index draws rather than
contactsPerDay, one round runs per member infected at the start of the
day, so a completed day consumes that many index draws per infected
member, and for nonnegative contactsPerDay and N at least one the round
count equals the integer min of contactsPerDay and N minus 1. -/
theorem claim3_amended :
    (∀ (people : List Person) (prob : Rat) (contacts : Int) (acc : List Nat) (r : Rng),
      (Population.simulateTransmission people prob contacts acc r).2.ip =
        r.ip + Population.transCount contacts people.length) ∧
    (∀ (pop : Population) (r : Rng) (pop2 : Population) (r2 : Rng),
      pop.simulateOneDay r = Except.ok (pop2, r2) →
      r2.ip = r.ip + (pop.population.filter Person.isInfected).length *
        Population.transCount pop.contactsPerDay pop.population.length) ∧
    (∀ (contacts : Int) (len : Nat), 0 ≤ contacts → 1 ≤ len →
      (Population.transCount contacts len : Int) = min contacts ((len : Int) - 1)) := by
  refine ⟨?_, ?_, ?_⟩
  · intro people prob contacts acc r
    exact (simulateTransmission_rng people prob contacts acc r).2.2
  · intro pop r pop2 r2 hok
    obtain ⟨people2, hil, hpop2, hr2⟩ := simulateOneDay_ok_elim hok
    rw [hr2, dayLoopAux_ip, infCountFrom_filter]
  · intro contacts len hc hl
    unfold Population.transCount
    rw [Int.toNat_of_nonneg]
    exact le_min hc (by omega)

/-- Witness for the amended C3: one day on the three-member cohort with
one sick member and two contacts consumes exactly two index draws. -/
theorem claim3_witness :
    (Rng.mk rng0.idxs rng0.probs 2 0).ip =
      rng0.ip + (popC3.population.filter Person.isInfected).length *
        Population.transCount popC3.contactsPerDay popC3.population.length :=
  claim3_amended.2.1 popC3 rng0 popC3after (Rng.mk rng0.idxs rng0.probs 2 0) rfl

/-! Claim about transmission probability zero. -/

theorem simulateOneDay_susceptible_preserved {pop : Population} {r : Rng}
    {pop2 : Population} {r2 : Rng}
    (hprob : pop.infectionProbability ≤ 0) (hr : ∀ k, 0 < r.probs k)
    (hok : pop.simulateOneDay r = Except.ok (pop2, r2)) :
    ∀ (i : Nat) (p : Person), pop.population.get? i = some p → p.isSusceptible = true →
      pop2.population.get? i = some p := by
  obtain ⟨people2, hil, hpop2, hr2⟩ := simulateOneDay_ok_elim hok
  have hacc : (Population.dayLoopAux pop.infectionProbability pop.contactsPerDay
      pop.population.length 0 pop.population [] r).2.1 = [] :=
    dayLoopAux_acc_of_pos_probs pop.infectionProbability hprob pop.contactsPerDay
      pop.population.length 0 pop.population [] r hr
  rw [hacc] at hil
  have hpe : people2 = (Population.dayLoopAux pop.infectionProbability pop.contactsPerDay
      pop.population.length 0 pop.population [] r).1 :=
    (Except.ok.inj hil).symm
  subst hpop2
  intro i p hp hps
  have hlt : i < pop.population.length := by
    rcases List.get?_eq_some.mp hp with ⟨hh, _⟩
    exact hh
  show people2.get? i = some p
  rw [hpe, dayLoopAux_people, updRange_get?, if_pos ⟨Nat.zero_le i, by omega⟩, hp]
  rw [show (some p).map Person.updateState = some p.updateState from rfl]
  rw [Person.updateState_of_susceptible hps]

/-- C10 counterexample: with transmission probability zero, a
probability draw of exactly zero still passes the comparison, which is
draw at most probability, so the susceptible member one of a two-member
cohort is newly infected by contact in one day even though the
probability is zero; before the day it was the fresh susceptible
person. -/
theorem claim10_counterexample :
    ((((((Population.create 2).setInfectionProbability 0).setContactsPerDay 1).setInfectionDuration
        3).infectRandomPerson 0).map (fun pop => pop.population.get? 1) =
      Except.ok (some Person.init)) ∧
    ((((((Population.create 2).setInfectionProbability 0).setContactsPerDay 1).setInfectionDuration
        3).infectRandomPerson 0).bind
      (fun pop => (pop.simulateOneDay
        { idxs := fun _ => 1, probs := fun _ => 0, ip := 0, pp := 0 }).map
        (fun x => x.1.population.get? 1)) =
      Except.ok (some { infectionDays := 3, current := Status.sick })) := by
  exact ⟨by decide, by decide⟩

/-- C10 amended: with transmission probability zero, along any sequence
of completed day advancements in which every probability draw is
strictly positive, every susceptible member is left entirely unchanged,
so no susceptible member is ever newly infected by contact; a draw of
exactly zero, which the unit interval distribution can produce, does
transmit, as the counterexample shows. -/
theorem claim10_amended : ∀ (rs : List Rng) (pop pop2 : Population),
    pop.infectionProbability = 0 → (∀ r ∈ rs, ∀ k, 0 < r.probs k) →
    advanceSeq pop rs = Except.ok pop2 →
    ∀ (i : Nat) (p : Person), pop.population.get? i = some p → p.isSusceptible = true →
      pop2.population.get? i = some p := by
  intro rs
  induction rs with
  | nil =>
    intro pop pop2 hprob hrs hok i p hp hps
    cases hok
    exact hp
  | cons r rest ih =>
    intro pop pop2 hprob hrs hok i p hp hps
    simp only [advanceSeq] at hok
    cases hstep : pop.simulateOneDay r with
    | error e =>
      rw [hstep] at hok
      simp only [] at hok
      cases hok
    | ok x =>
      rw [hstep] at hok
      simp only [] at hok
      obtain ⟨x1, x2⟩ := x
      have hpres := simulateOneDay_susceptible_preserved (le_of_eq hprob)
        (hrs r (List.mem_cons_self r rest)) hstep i p hp hps
      have hprob2 : x1.infectionProbability = 0 := by
        rw [(simulateOneDay_fields hstep).2.2.1, hprob]
      exact ih x1 pop2 hprob2 (fun r2 h2 => hrs r2 (List.mem_cons_of_mem r h2)) hok i p hpres hps

/-- Witness for the amended C10: one day on the two-member cohort popZ
under the oracle rngH whose probability draws are all one leaves the
susceptible member one unchanged. -/
theorem claim10_witness : popZafter.population.get? 1 = some Person.init :=
  claim10_amended [rngH] popZ popZafter rfl
    (by
      intro r hr k
      rw [List.mem_singleton] at hr
      subst hr
      show (0 : Rat) < 1
      norm_num)
    (by decide) 1 Person.init rfl rfl

/-! The countdown scenario: ten members, duration three, no contacts. -/

theorem get?_replicate {α : Type} (a : α) (n i : Nat) :
    (List.replicate n a).get? i = if i < n then some a else none := by
  rw [List.get?_eq_getElem?, List.getElem?_replicate]

theorem okBind {ε α β : Type} (a : α) (f : α → Except ε β) :
    (Except.ok a).bind f = f a := rfl

theorem okMap {ε α β : Type} (a : α) (f : α → β) :
    (Except.ok a : Except ε α).map f = Except.ok (f a) := rfl

theorem countReplicateSet (f : Person → Bool) (b a : Person) :
    ∀ (n i : Nat), i < n →
      (((List.replicate n b).set i a).filter f).length =
        (if f a then 1 else 0) + (if f b then n - 1 else 0) := by
  intro n
  induction n with
  | zero => intro i h; exact absurd h (Nat.not_lt_zero i)
  | succ n ih =>
    intro i hi
    cases i with
    | zero =>
      show ((a :: List.replicate n b).filter f).length = _
      rw [List.filter_cons, List.filter_replicate]
      by_cases hfa : f a <;> by_cases hfb : f b <;> simp [hfa, hfb] <;> omega
    | succ i0 =>
      show ((b :: (List.replicate n b).set i0 a).filter f).length = _
      have hrec := ih i0 (by omega)
      rw [List.filter_cons]
      by_cases hfb : f b
      · rw [if_pos hfb, List.length_cons, hrec]
        by_cases hfa : f a
        · rw [if_pos hfa, if_pos hfb, if_pos hfb]
          omega
        · rw [if_neg hfa, if_pos hfb, if_pos hfb]
          omega
      · rw [if_neg hfb, hrec]
        by_cases hfa : f a
        · rw [if_pos hfa, if_neg hfb, if_neg hfb]
        · rw [if_neg hfa, if_neg hfb, if_neg hfb]

theorem c5pop_seed (idx : Nat) (hidx : idx < 10) :
    c5pop.infectRandomPerson idx = Except.ok
      { size := 10, day := 0, countInfected := 0, countSusceptible := 10, countRecovered := 0,
        infectionProbability := 0, contactsPerDay := 0, infectionDuration := 3,
        population := (List.replicate 10 Person.init).set idx
          { infectionDays := 3, current := Status.sick } } := by
  unfold Population.infectRandomPerson Population.infectPersonAt
  have hpop : c5pop.population = List.replicate 10 Person.init := rfl
  rw [hpop, get?_replicate, if_pos hidx]
  simp only []
  have hinf : Person.init.infect c5pop.infectionDuration =
      Except.ok { infectionDays := 3, current := Status.sick } := by decide
  rw [hinf]
  rfl

theorem zeroAdvance_repSet (dy cI cS cR : Int) (idx : Nat) (hidx : idx < 10) (x : Person) :
    zeroAdvance { size := 10, day := dy, countInfected := cI, countSusceptible := cS,
                  countRecovered := cR, infectionProbability := 0, contactsPerDay := 0,
                  infectionDuration := 3,
                  population := (List.replicate 10 Person.init).set idx x } =
    { size := 10, day := dy + 1,
      countInfected := if x.updateState.isInfected then 1 else 0,
      countSusceptible := (if x.updateState.isSusceptible then 1 else 0) + 9,
      countRecovered := if x.updateState.isRecovered then 1 else 0,
      infectionProbability := 0, contactsPerDay := 0, infectionDuration := 3,
      population := (List.replicate 10 Person.init).set idx x.updateState } := by
  have hmap : ((List.replicate 10 Person.init).set idx x).map Person.updateState =
      (List.replicate 10 Person.init).set idx x.updateState := by
    rw [List.map_set, List.map_replicate]
    rfl
  unfold zeroAdvance
  apply Population.ext
  · rfl
  · rfl
  · rw [(updateCounts_spec _).1]
    simp only []
    rw [hmap, countReplicateSet Person.isInfected Person.init x.updateState 10 idx hidx]
    rw [show Person.isInfected Person.init = false from rfl]
    by_cases hx : x.updateState.isInfected <;> simp [hx]
  · rw [(updateCounts_spec _).2.1]
    simp only []
    rw [hmap, countReplicateSet Person.isSusceptible Person.init x.updateState 10 idx hidx]
    rw [show Person.isSusceptible Person.init = true from rfl]
    by_cases hx : x.updateState.isSusceptible <;> simp [hx]
  · rw [(updateCounts_spec _).2.2]
    simp only []
    rw [hmap, countReplicateSet Person.isRecovered Person.init x.updateState 10 idx hidx]
    rw [show Person.isRecovered Person.init = false from rfl]
    by_cases hx : x.updateState.isRecovered <;> simp [hx]
  · rfl
  · rfl
  · rfl
  · show ((List.replicate 10 Person.init).set idx x).map Person.updateState =
      (List.replicate 10 Person.init).set idx x.updateState
    exact hmap

theorem c5_step (dy cI cS cR : Int) (idx : Nat) (hidx : idx < 10) (x : Person) (r : Rng) :
    ({ size := 10, day := dy, countInfected := cI, countSusceptible := cS,
       countRecovered := cR, infectionProbability := 0, contactsPerDay := 0,
       infectionDuration := 3,
       population := (List.replicate 10 Person.init).set idx x } : Population).simulateOneDay r =
    Except.ok ({ size := 10, day := dy + 1,
                 countInfected := if x.updateState.isInfected then 1 else 0,
                 countSusceptible := (if x.updateState.isSusceptible then 1 else 0) + 9,
                 countRecovered := if x.updateState.isRecovered then 1 else 0,
                 infectionProbability := 0, contactsPerDay := 0, infectionDuration := 3,
                 population := (List.replicate 10 Person.init).set idx x.updateState }, r) := by
  rw [simulateOneDay_zero_contacts (by exact le_refl 0) r,
    zeroAdvance_repSet dy cI cS cR idx hidx x]

theorem c5_d1 (idx : Nat) (hidx : idx < 10) (r : Rng) :
    (c5day0 idx).simulateOneDay r = Except.ok (c5day1 idx, r) :=
  c5_step 0 0 10 0 idx hidx { infectionDays := 3, current := Status.sick } r

theorem c5_d2 (idx : Nat) (hidx : idx < 10) (r : Rng) :
    (c5day1 idx).simulateOneDay r = Except.ok (c5day2 idx, r) :=
  c5_step 1 1 9 0 idx hidx { infectionDays := 2, current := Status.sick } r

theorem c5_d3 (idx : Nat) (hidx : idx < 10) (r : Rng) :
    (c5day2 idx).simulateOneDay r = Except.ok (c5day3 idx, r) :=
  c5_step 2 1 9 0 idx hidx { infectionDays := 1, current := Status.sick } r

/-- C5 counterexample: on day zero of the scenario, after seeding one
infection into the ten-member cohort with duration three and no
contacts, the observable count getters report ten susceptible, zero
infected, zero recovered, not the claimed nine, one, zero, because the
seeding call does not recompute the cached counts. -/
theorem claim5_counterexample :
    (c5pop.infectRandomPerson 0).map Population.countsTriple = Except.ok (10, 0, 0) ∧
    (Except.ok (10, 0, 0) : Except Person.InfectError (Int × Int × Int)) ≠
      Except.ok (9, 1, 0) :=
  ⟨by decide, by decide⟩

/-- C5 amended: in the scenario of ten members, duration three, no
contacts, after seeding one infection the getters report ten, zero,
zero on day zero although the actual member partition is nine, one,
zero; after the first and the second advancement they report nine
susceptible, one infected, zero recovered, and after the third
advancement nine, zero, one, for every drawn seed position and every
oracle. -/
theorem claim5_amended (r1 r2 r3 : Rng) (idx : Nat) (hidx : idx < 10) :
    (c5pop.infectRandomPerson idx).map Population.countsTriple = Except.ok (10, 0, 0) ∧
    (c5pop.infectRandomPerson idx).map
      (fun pop => (pop.population.filter Person.isInfected).length) = Except.ok 1 ∧
    ((c5pop.infectRandomPerson idx).bind
      (fun pop => (pop.simulateOneDay r1).map Prod.fst)).map Population.countsTriple =
      Except.ok (9, 1, 0) ∧
    (((c5pop.infectRandomPerson idx).bind (fun pop => (pop.simulateOneDay r1).map Prod.fst)).bind
      (fun pop => (pop.simulateOneDay r2).map Prod.fst)).map Population.countsTriple =
      Except.ok (9, 1, 0) ∧
    ((((c5pop.infectRandomPerson idx).bind (fun pop => (pop.simulateOneDay r1).map Prod.fst)).bind
      (fun pop => (pop.simulateOneDay r2).map Prod.fst)).bind
      (fun pop => (pop.simulateOneDay r3).map Prod.fst)).map Population.countsTriple =
      Except.ok (9, 0, 1) := by
  have hseed : c5pop.infectRandomPerson idx = Except.ok (c5day0 idx) := c5pop_seed idx hidx
  refine ⟨?_, ?_, ?_, ?_, ?_⟩
  · rw [hseed, okMap]
    rfl
  · rw [hseed, okMap]
    show Except.ok (((List.replicate 10 Person.init).set idx
      { infectionDays := 3, current := Status.sick }).filter Person.isInfected).length =
      Except.ok 1
    rw [countReplicateSet Person.isInfected Person.init
      { infectionDays := 3, current := Status.sick } 10 idx hidx]
    rfl
  · simp only [hseed, okBind, okMap, c5_d1 idx hidx r1]
    rfl
  · simp only [hseed, okBind, okMap, c5_d1 idx hidx r1, c5_d2 idx hidx r2]
    rfl
  · simp only [hseed, okBind, okMap, c5_d1 idx hidx r1, c5_d2 idx hidx r2, c5_d3 idx hidx r3]
    rfl

/-- Witness for the amended C5 at seed position zero with the all-zero
oracle on each day. -/
theorem claim5_witness :
    (c5pop.infectRandomPerson 0).map Population.countsTriple = Except.ok (10, 0, 0) ∧
    (c5pop.infectRandomPerson 0).map
      (fun pop => (pop.population.filter Person.isInfected).length) = Except.ok 1 ∧
    ((c5pop.infectRandomPerson 0).bind
      (fun pop => (pop.simulateOneDay rng0).map Prod.fst)).map Population.countsTriple =
      Except.ok (9, 1, 0) ∧
    (((c5pop.infectRandomPerson 0).bind (fun pop => (pop.simulateOneDay rng0).map Prod.fst)).bind
      (fun pop => (pop.simulateOneDay rng0).map Prod.fst)).map Population.countsTriple =
      Except.ok (9, 1, 0) ∧
    ((((c5pop.infectRandomPerson 0).bind (fun pop => (pop.simulateOneDay rng0).map Prod.fst)).bind
      (fun pop => (pop.simulateOneDay rng0).map Prod.fst)).bind
      (fun pop => (pop.simulateOneDay rng0).map Prod.fst)).map Population.countsTriple =
      Except.ok (9, 0, 1) :=
  claim5_amended rng0 rng0 rng0 0 (by decide)
